import Mathlib

/-!
Shallow embedding of the TornadoChart visual
(src/Clients/Visuals/visuals/samples/tornadoChart.ts).

Numbers are modelled as exact rationals (ℚ). External collaborators
(text measurement, value formatting, color resolution) are modelled as
explicit function parameters. Fallible JavaScript member accesses
(indexing into a possibly-empty array) are modelled with Option/Except.
-/

namespace TornadoChart

/-- Source `this.MinOpacity = 0` (default argument of `setOpacity`). -/
def MinOpacity : ℚ := 0

/-- Source `this.MinColumnOpacity = 0.2` (set in the constructor). -/
def MinColumnOpacity : ℚ := 1 / 5

/-- Source `this.MaxOpacity = 1`. -/
def MaxOpacity : ℚ := 1

/-- Source `this.MaxSizeSections = 100`. -/
def MaxSizeSections : ℚ := 100

/-- Source `this.MaxSeries = 2`. -/
def MaxSeries : Nat := 2

/-- Source `this.leftLabelMargin = 4`. -/
def leftLabelMargin : ℚ := 4

/-- Source `this.InnerTextHeightDelta = 2`. -/
def InnerTextHeightDelta : ℚ := 2

/-- Source `TornadoChartSections`: {left, right, isPercent}. -/
structure TornadoChartSections where
  left : ℚ
  right : ℚ
  isPercent : Bool
deriving Repr, DecidableEq

/-- Source `getValueByPercent(percent, maxValue, isPrecent)`:
`isPrecent ? (percent * maxValue) / 100 : percent`. -/
def getValueByPercent (percent maxValue : ℚ) (isPrecent : Bool) : ℚ :=
  if isPrecent then (percent * maxValue) / 100 else percent

/-- Source `updateSections(dataView)`: sets `currentSections.left` to the configured
left when `showCategories`, else 0, then recomputes `currentSections.right`
as `isPercent ? MaxSizeSections - left : viewport.width - left`.
The configured `sections` and the viewport width are passed explicitly
(they are object fields in the source). -/
def updateSections (sections : TornadoChartSections) (showCategories : Bool)
    (viewportWidth : ℚ) : TornadoChartSections :=
  let left := if showCategories then sections.left else 0
  let right := if sections.isPercent then MaxSizeSections - left
    else viewportWidth - left
  { left := left, right := right, isPercent := sections.isPercent }

/-- Source `updateSectionsWidth()`: converts the current sections into the two
pixel widths `(widthLeftSection, widthRightSection)` via `getValueByPercent`. -/
def updateSectionsWidth (currentSections : TornadoChartSections)
    (viewportWidth : ℚ) : ℚ × ℚ :=
  (getValueByPercent currentSections.left viewportWidth currentSections.isPercent,
   getValueByPercent currentSections.right viewportWidth currentSections.isPercent)

/-- Source `computeHeightColumn`: `(viewport.height - (length - 1) * columnPadding) / length`.
The source divides with no zero-guard; in JavaScript `length = 0` yields a
non-finite result, modelled here as `none`. `columnPadding` is an object field
(default 10, constructor-overridable) passed explicitly. -/
def computeHeightColumn (viewportHeight columnPadding : ℚ) (length : Nat) :
    Option ℚ :=
  if length = 0 then none
  else some ((viewportHeight - ((length : ℚ) - 1) * columnPadding) / (length : ℚ))

/-- Source `getColumnWidth(value, minValue, maxValue, width)`:
full `width` when `minValue === maxValue`, otherwise
`width * (value - minValue) / (maxValue - minValue)`. -/
def getColumnWidth (value minValue maxValue width : ℚ) : ℚ :=
  if minValue = maxValue then width
  else width * (value - minValue) / (maxValue - minValue)

/-- C1: for minValue ≤ v ≤ maxValue (and a nonnegative region width, implicit
in the spec since region widths are pixel widths), getColumnWidth stays within
[0, regionWidth]; when minValue = maxValue it returns exactly regionWidth for
every value, and otherwise the denominator maxValue - minValue is nonzero. -/
theorem getColumnWidth_bounded (v minV maxV w : ℚ)
    (hw : 0 ≤ w) (hlo : minV ≤ v) (hhi : v ≤ maxV) :
    (0 ≤ getColumnWidth v minV maxV w ∧ getColumnWidth v minV maxV w ≤ w) ∧
    (∀ u : ℚ, minV = maxV → getColumnWidth u minV maxV w = w) ∧
    (minV ≠ maxV → maxV - minV ≠ 0 ∧
      getColumnWidth v minV maxV w = w * (v - minV) / (maxV - minV)) := by
  refine ⟨?_, ?_, ?_⟩
  · unfold getColumnWidth
    by_cases h : minV = maxV
    · simp [h, hw]
    · simp only [h, if_false]
      have hne : minV < maxV := lt_of_le_of_ne (le_trans hlo hhi) h
      have hden : 0 < maxV - minV := by linarith
      constructor
      · apply div_nonneg
        · exact mul_nonneg hw (by linarith)
        · linarith
      · rw [div_le_iff₀ hden]
        nlinarith
  · intro u h
    simp [getColumnWidth, h]
  · intro h
    refine ⟨fun hc => h (by linarith), ?_⟩
    simp [getColumnWidth, h]

/-- Witness for C1 at v = 3, minV = -1, maxV = 7, w = 100. -/
theorem getColumnWidth_bounded_witness :
    (0 ≤ getColumnWidth 3 (-1) 7 100 ∧ getColumnWidth 3 (-1) 7 100 ≤ 100) ∧
    (∀ u : ℚ, (-1 : ℚ) = 7 → getColumnWidth u (-1) 7 100 = 100) ∧
    ((-1 : ℚ) ≠ 7 → (7 : ℚ) - (-1) ≠ 0 ∧
      getColumnWidth 3 (-1) 7 100 = 100 * (3 - (-1)) / (7 - (-1))) :=
  getColumnWidth_bounded 3 (-1) 7 100 (by norm_num) (by norm_num) (by norm_num)

/-- C3: whenever computeHeightColumn succeeds (length ≥ 1), the computed row
height satisfies rowHeight * n + (n - 1) * padding = chartHeight exactly. -/
theorem computeHeightColumn_partitions (h p : ℚ) (n : Nat) (r : ℚ)
    (hr : computeHeightColumn h p n = some r) :
    r * n + ((n : ℚ) - 1) * p = h := by
  unfold computeHeightColumn at hr
  by_cases hn : n = 0
  · simp [hn] at hr
  · simp only [hn, if_false, Option.some.injEq] at hr
    have hnq : (n : ℚ) ≠ 0 := Nat.cast_ne_zero.mpr hn
    subst hr
    field_simp

/-- Witness for C3 at chartHeight 200, padding 10, two categories: each row
has height 95 and 95 * 2 + 1 * 10 = 200. -/
theorem computeHeightColumn_partitions_witness :
    (95 : ℚ) * (2 : Nat) + ((2 : Nat) - 1 : ℚ) * 10 = 200 :=
  computeHeightColumn_partitions 200 10 2 95 (by norm_num [computeHeightColumn])

/-- C10: computeHeightColumn has a well-defined finite result exactly when the
category count is at least 1; with zero categories the unguarded division by
the count has no finite value. -/
theorem computeHeightColumn_defined (h p : ℚ) (n : Nat) :
    (computeHeightColumn h p n).isSome ↔ 1 ≤ n := by
  unfold computeHeightColumn
  by_cases hn : n = 0
  · simp [hn]
  · simp [hn, Nat.one_le_iff_ne_zero]

/-- Witness for C10: defined at two categories, via the theorem. -/
theorem computeHeightColumn_defined_witness :
    (computeHeightColumn 200 10 2).isSome :=
  (computeHeightColumn_defined 200 10 2).mpr (by norm_num)

/-- C7: each section width in pixels is isPercent ? section * viewportWidth / 100
: section, for both sections; and with showCategories = false the left section
becomes 0 while the right section is recomputed as
isPercent ? 100 - left : viewportWidth - left (with the collapsed left). -/
theorem updateSections_spec (s : TornadoChartSections) (vw : ℚ) :
    ((updateSectionsWidth s vw).1 =
        (if s.isPercent then s.left * vw / 100 else s.left) ∧
      (updateSectionsWidth s vw).2 =
        (if s.isPercent then s.right * vw / 100 else s.right)) ∧
    ((updateSections s false vw).left = 0 ∧
      (updateSections s false vw).right =
        (if s.isPercent then 100 - (updateSections s false vw).left
          else vw - (updateSections s false vw).left)) := by
  refine ⟨⟨rfl, rfl⟩, rfl, ?_⟩
  simp [updateSections, MaxSizeSections]

/-- Source `d3.min(values)`: `undefined` on an empty array, otherwise the least
element (modelled as a left fold of `min` over the list). -/
def d3min : List ℚ → Option ℚ
  | [] => none
  | x :: xs => some (xs.foldl min x)

/-- Source `d3.max(values)`: `undefined` on an empty array, otherwise the greatest
element. -/
def d3max : List ℚ → Option ℚ
  | [] => none
  | x :: xs => some (xs.foldl max x)

theorem foldl_min_pull (x y : ℚ) (t : List ℚ) :
    t.foldl min (min x y) = min x (t.foldl min y) := by
  induction t generalizing y with
  | nil => rfl
  | cons b t ih =>
    simp only [List.foldl_cons]
    rw [min_assoc, ih (min y b)]

theorem foldl_max_pull (x y : ℚ) (t : List ℚ) :
    t.foldl max (max x y) = max x (t.foldl max y) := by
  induction t generalizing y with
  | nil => rfl
  | cons b t ih =>
    simp only [List.foldl_cons]
    rw [max_assoc, ih (max y b)]

/-- Source `TornadoChartSeries`: fill color, display name and aligned values. -/
structure TornadoChartSeries where
  fill : String
  name : String
  values : List ℚ
deriving Repr, DecidableEq

/-- The `minValue`/`maxValue` computation of `generateColumnDataBySeries`:
`minValue = Math.min(d3.min(series[0].values), 0)`,
`maxValue = d3.max(series[0].values)`, widened over `series[1]` exactly when
the series count equals `MaxSeries`. `none` models the `undefined`/`NaN`
outcome of `d3.min`/`d3.max` on an empty value array (and the empty series
list, for which the source returns early and computes no bounds). -/
def generateBounds : List (List ℚ) → Option (ℚ × ℚ)
  | [] => none
  | [v0] =>
    match d3min v0, d3max v0 with
    | some m0, some M0 => some (min m0 0, M0)
    | _, _ => none
  | [v0, v1] =>
    match d3min v0, d3max v0, d3min v1, d3max v1 with
    | some m0, some M0, some m1, some M1 =>
      some (min (min m0 0) m1, max M0 M1)
    | _, _, _, _ => none
  | v0 :: _ :: _ :: _ =>
    match d3min v0, d3max v0 with
    | some m0, some M0 => some (min m0 0, M0)
    | _, _ => none

/-- C2: the bounds used for width normalization are joint: the computed
minValue is d3min of 0 together with every value of every retained series,
the computed maxValue is d3max over every value of every retained series,
and minValue ≤ 0 always — for one retained series and for two. -/
theorem generateBounds_joint (v0 v1 : List ℚ) (m M m2 M2 : ℚ) :
    (generateBounds [v0] = some (m, M) →
      d3min (0 :: v0) = some m ∧ d3max v0 = some M ∧ m ≤ 0) ∧
    (generateBounds [v0, v1] = some (m2, M2) →
      d3min (0 :: (v0 ++ v1)) = some m2 ∧ d3max (v0 ++ v1) = some M2 ∧
        m2 ≤ 0) := by
  constructor
  · intro h
    cases v0 with
    | nil => simp [generateBounds, d3min] at h
    | cons a t0 =>
      simp only [generateBounds, d3min, d3max, Option.some.injEq,
        Prod.mk.injEq] at h
      obtain ⟨hm, hM⟩ := h
      refine ⟨?_, by simp [d3max, hM], by rw [← hm]; exact min_le_right _ _⟩
      simp only [d3min, List.foldl_cons, Option.some.injEq]
      rw [foldl_min_pull, ← hm, min_comm]
  · intro h
    cases v0 with
    | nil => simp [generateBounds, d3min] at h
    | cons a t0 =>
      cases v1 with
      | nil => simp [generateBounds, d3min, d3max] at h
      | cons b t1 =>
        simp only [generateBounds, d3min, d3max, Option.some.injEq,
          Prod.mk.injEq] at h
        obtain ⟨hm, hM⟩ := h
        refine ⟨?_, ?_, ?_⟩
        · simp only [d3min, List.cons_append, List.foldl_cons,
            Option.some.injEq]
          rw [foldl_min_pull, List.foldl_append, List.foldl_cons,
            foldl_min_pull, ← hm]
          simp [min_comm, min_assoc, min_left_comm]
        · simp only [d3max, List.cons_append, List.foldl_cons,
            Option.some.injEq]
          rw [List.foldl_append, List.foldl_cons, foldl_max_pull, ← hM]
        · rw [← hm]
          exact le_trans (min_le_left _ _) (min_le_right _ _)

/-- Witness for C2 on series values [10, -5] and [20, 15]: the joint bounds
are minValue = -5 and maxValue = 20. -/
theorem generateBounds_joint_witness :
    d3min (0 :: (([10, -5] : List ℚ) ++ [20, 15])) = some (-5) ∧
    d3max (([10, -5] : List ℚ) ++ [20, 15]) = some 20 ∧ (-5 : ℚ) ≤ 0 :=
  (generateBounds_joint [10, -5] [20, 15] 0 0 (-5) 20).2
    (by norm_num [generateBounds, d3min, d3max])

/-- The external text collaborators used by `getLabelData`:
`valueFormatter.format`, `TextMeasurementService.getTailoredTextOrDefault`
at `this.maxLabelWidth`, `measureSvgTextWidth` and `measureSvgTextHeight`
(the latter two as invoked through `getTextData`). -/
structure TextMeasure where
  format : ℚ → String
  tailored : String → String
  svgWidth : String → ℚ
  svgHeight : String → ℚ

/-- Source `LabelData`. -/
structure LabelData where
  x : ℚ
  y : ℚ
  dx : ℚ
  dy : ℚ
  source : ℚ
  value : String
  colour : String
  height : ℚ
  width : ℚ
deriving Repr, DecidableEq

/-- Source `TooltipDataItem`. -/
structure TooltipDataItem where
  displayName : String
  value : String
deriving Repr, DecidableEq

/-- Source `ColumnData`. -/
structure ColumnData where
  x : ℚ
  y : ℚ
  dx : ℚ
  dy : ℚ
  px : ℚ
  py : ℚ
  angle : ℚ
  width : ℚ
  height : ℚ
  label : LabelData
  color : String
  tooltipData : List TooltipDataItem
deriving Repr, DecidableEq

/-- Source `getTooltipData(displayName, categoryValue, seriesName, value)`. -/
def getTooltipData (displayName categoryValue seriesName value : String) :
    List TooltipDataItem :=
  [{ displayName := displayName, value := categoryValue },
   { displayName := seriesName, value := value }]

/-- Source `getLabelData`: formats the value, measures the formatted text's height,
truncates it to `maxLabelWidth`, measures the truncated text's width, then
places the label inside the bar (centered, inside fill) when the bar is
strictly wider than the truncated text, and otherwise outside at the bar's
trailing edge (outside fill) with the fixed `leftLabelMargin`. `heightColumn`
is the object field `this.heightColumn`, passed explicitly. -/
def getLabelData (measure : TextMeasure) (heightColumn : ℚ)
    (value xColumn yColumn dxColumn dyColumn columnWidth : ℚ)
    (isColumnPositionLeft : Bool)
    (labelInsideFillColour labelOutsideFillColour : String) : LabelData :=
  let formatted := measure.format value
  let textHeight := measure.svgHeight formatted
  let valueAfterValueFormatter := measure.tailored formatted
  let textWidth := measure.svgWidth valueAfterValueFormatter
  let dxAndColour : ℚ × String :=
    if columnWidth > textWidth then
      (dxColumn + columnWidth / 2 - textWidth / 2, labelInsideFillColour)
    else if isColumnPositionLeft then
      (dxColumn - leftLabelMargin - textWidth, labelOutsideFillColour)
    else
      (dxColumn + columnWidth + leftLabelMargin, labelOutsideFillColour)
  { x := xColumn, y := yColumn, dx := dxAndColour.1,
    dy := dyColumn + heightColumn / 2 + textHeight / 2 - InnerTextHeightDelta,
    source := value, value := valueAfterValueFormatter,
    colour := dxAndColour.2, height := textHeight, width := textWidth }

/-- Source `generateColumnData`: one bar's full geometry. `Number(shiftToMiddle)` and
`Number(shiftToRight)` are the JavaScript boolean-to-0/1 conversions. -/
def generateColumnData (measure : TextMeasure)
    (heightColumn columnPadding : ℚ) (value minValue maxValue width : ℚ)
    (shiftToMiddle shiftToRight : Bool) (color : String) (index : Nat)
    (categoryValue seriesName displayName : String)
    (labelInsideFillColour labelOutsideFillColour : String) : ColumnData :=
  let x : ℚ := 0
  let y : ℚ := 0
  let widthOfColumn := getColumnWidth value minValue maxValue width
  let shift := width - widthOfColumn
  let dx := shift * (if shiftToMiddle then 1 else 0) +
    width * (if shiftToRight then 1 else 0)
  let dy := (heightColumn + columnPadding) * (index : ℚ)
  let label := getLabelData measure heightColumn value x y dx dy widthOfColumn
    shiftToMiddle labelInsideFillColour labelOutsideFillColour
  let angle : ℚ := if shiftToMiddle then 180 else 0
  { x := x, y := y, dx := dx, dy := dy, px := widthOfColumn / 2,
    py := heightColumn / 2, angle := angle, width := widthOfColumn,
    height := heightColumn, label := label, color := color,
    tooltipData :=
      getTooltipData displayName categoryValue seriesName label.value }

/-- The `shiftToMiddle` flag of the `reduce` callback in
`generateColumnDataBySeries`: `index === 0 && series.length === this.MaxSeries`. -/
def shiftToMiddleFlag (index seriesLength : Nat) : Bool :=
  index == 0 && seriesLength == MaxSeries

/-- The `shiftToRight` flag of the same callback: `index === 1`. -/
def shiftToRightFlag (index : Nat) : Bool :=
  index == 1

/-- Source `generateColumnDataByValues`: one series' bars, in category order.
`categories[index]` is total in the source only because category count equals
value count; out-of-range access (JavaScript `undefined`) is modelled by "". -/
def generateColumnDataByValues (measure : TextMeasure)
    (heightColumn columnPadding : ℚ) (s : TornadoChartSeries)
    (minValue maxValue maxWidth : ℚ) (shiftToRight shiftToMiddle : Bool)
    (categories : List String) (seriesName displayName : String)
    (labelInsideFillColour labelOutsideFillColour : String) : List ColumnData :=
  s.values.mapIdx fun index value =>
    generateColumnData measure heightColumn columnPadding value minValue
      maxValue maxWidth shiftToMiddle shiftToRight s.fill index
      (categories.getD index "") seriesName displayName
      labelInsideFillColour labelOutsideFillColour

/-- Source `generateColumnDataBySeries`: empty result for an empty series list;
otherwise the usable width is halved exactly when two series are present,
the joint bounds are computed, and the per-series bar lists are concatenated.
`none` models the undefined bounds arising from an empty value array. -/
def generateColumnDataBySeries (measure : TextMeasure)
    (heightColumn columnPadding widthRightSection : ℚ)
    (series : List TornadoChartSeries) (categories : List String)
    (displayName : String)
    (labelInsideFillColour labelOutsideFillColour : String) :
    Option (List ColumnData) :=
  if series.length = 0 then some []
  else
    let width := if series.length = MaxSeries
      then widthRightSection / (MaxSeries : ℚ) else widthRightSection
    (generateBounds (series.map fun s => s.values)).map fun bounds =>
      (series.mapIdx fun index s =>
        generateColumnDataByValues measure heightColumn columnPadding s
          bounds.1 bounds.2 width (shiftToRightFlag index)
          (shiftToMiddleFlag index series.length) categories s.name
          displayName labelInsideFillColour labelOutsideFillColour).flatten

/-- A concrete text-measure collaborator for concrete evaluations: formats to
"", never truncates, measures width and height as 0. -/
def constMeasure : TextMeasure where
  format := fun _ => ""
  tailored := fun s => s
  svgWidth := fun _ => 0
  svgHeight := fun _ => 0

/-- C4 (amended): series 0 of a 2-series chart (shiftToMiddle) is rotated 180
about its own center (pivot (barWidth/2, rowHeight/2)) and translated to the
far edge of its half-region (dx = regionWidth - barWidth); series index 1 is
un-rotated with dx = regionWidth; the sole series of a 1-series chart is
un-rotated with dx = 0 (not regionWidth, as the original claim stated). -/
theorem generateColumnData_orientation (measure : TextMeasure)
    (hC pad v minV maxV w : ℚ) (color cat sn dn li lo : String) (i : Nat) :
    ((generateColumnData measure hC pad v minV maxV w
        (shiftToMiddleFlag 0 2) (shiftToRightFlag 0) color i cat sn dn
        li lo).angle = 180 ∧
      (generateColumnData measure hC pad v minV maxV w
        (shiftToMiddleFlag 0 2) (shiftToRightFlag 0) color i cat sn dn
        li lo).px =
        (generateColumnData measure hC pad v minV maxV w
          (shiftToMiddleFlag 0 2) (shiftToRightFlag 0) color i cat sn dn
          li lo).width / 2 ∧
      (generateColumnData measure hC pad v minV maxV w
        (shiftToMiddleFlag 0 2) (shiftToRightFlag 0) color i cat sn dn
        li lo).py = hC / 2 ∧
      (generateColumnData measure hC pad v minV maxV w
        (shiftToMiddleFlag 0 2) (shiftToRightFlag 0) color i cat sn dn
        li lo).dx =
        w - (generateColumnData measure hC pad v minV maxV w
          (shiftToMiddleFlag 0 2) (shiftToRightFlag 0) color i cat sn dn
          li lo).width) ∧
    ((generateColumnData measure hC pad v minV maxV w
        (shiftToMiddleFlag 1 2) (shiftToRightFlag 1) color i cat sn dn
        li lo).angle = 0 ∧
      (generateColumnData measure hC pad v minV maxV w
        (shiftToMiddleFlag 1 2) (shiftToRightFlag 1) color i cat sn dn
        li lo).dx = w) ∧
    ((generateColumnData measure hC pad v minV maxV w
        (shiftToMiddleFlag 0 1) (shiftToRightFlag 0) color i cat sn dn
        li lo).angle = 0 ∧
      (generateColumnData measure hC pad v minV maxV w
        (shiftToMiddleFlag 0 1) (shiftToRightFlag 0) color i cat sn dn
        li lo).dx = 0) := by
  refine ⟨⟨rfl, rfl, rfl, ?_⟩, ⟨rfl, ?_⟩, rfl, ?_⟩ <;>
    simp [generateColumnData, shiftToMiddleFlag, shiftToRightFlag, MaxSeries]

/-- C4 counterexample: in a 1-series chart (flags computed at index 0 with
series length 1) with region width 100, the sole series' bar has dx = 0,
not the full region width 100 demanded by the claim. -/
theorem generateColumnData_soleSeries_dx :
    (generateColumnData constMeasure 10 10 5 0 10 100
      (shiftToMiddleFlag 0 1) (shiftToRightFlag 0) "purple" 0 "a" "s" "d"
      "i" "o").dx = 0 ∧ (0 : ℚ) ≠ 100 := by
  constructor
  · simp [generateColumnData, shiftToMiddleFlag, shiftToRightFlag, MaxSeries]
  · norm_num

/-- C5: every bar yields exactly one label (getLabelData is a total function,
and the label carried by generateColumnData is exactly getLabelData applied
to the bar's own geometry); the label's width is the truncated text's
measured width; when the bar is strictly wider than that the label is
centered inside the bar with the inside fill, and otherwise it sits outside
the bar's trailing edge — before a left-growing (mirrored) bar, after the
bar otherwise — offset by the fixed margin, with the outside fill. -/
theorem getLabelData_placement (measure : TextMeasure)
    (hC pad v minV maxV w x y dxC dyC cw : ℚ) (isLeft sm sr : Bool)
    (inC outC color cat sn dn : String) (i : Nat) :
    ((generateColumnData measure hC pad v minV maxV w sm sr color i cat sn
        dn inC outC).label =
      getLabelData measure hC v
        (generateColumnData measure hC pad v minV maxV w sm sr color i cat
          sn dn inC outC).x
        (generateColumnData measure hC pad v minV maxV w sm sr color i cat
          sn dn inC outC).y
        (generateColumnData measure hC pad v minV maxV w sm sr color i cat
          sn dn inC outC).dx
        (generateColumnData measure hC pad v minV maxV w sm sr color i cat
          sn dn inC outC).dy
        (generateColumnData measure hC pad v minV maxV w sm sr color i cat
          sn dn inC outC).width sm inC outC) ∧
    ((getLabelData measure hC v x y dxC dyC cw isLeft inC outC).width =
      measure.svgWidth (measure.tailored (measure.format v))) ∧
    (cw > measure.svgWidth (measure.tailored (measure.format v)) →
      (getLabelData measure hC v x y dxC dyC cw isLeft inC outC).dx =
        dxC + cw / 2 -
          (getLabelData measure hC v x y dxC dyC cw isLeft inC outC).width
            / 2 ∧
      (getLabelData measure hC v x y dxC dyC cw isLeft inC outC).colour =
        inC) ∧
    (¬ cw > measure.svgWidth (measure.tailored (measure.format v)) →
      (getLabelData measure hC v x y dxC dyC cw isLeft inC outC).colour =
          outC ∧
        (isLeft = true →
          (getLabelData measure hC v x y dxC dyC cw isLeft inC outC).dx =
            dxC - leftLabelMargin -
              (getLabelData measure hC v x y dxC dyC cw isLeft inC
                outC).width) ∧
        (isLeft = false →
          (getLabelData measure hC v x y dxC dyC cw isLeft inC outC).dx =
            dxC + cw + leftLabelMargin)) := by
  refine ⟨rfl, rfl, fun hgt => ?_, fun hle => ?_⟩
  · simp [getLabelData, hgt]
  · refine ⟨?_, fun hl => ?_, fun hl => ?_⟩
    · cases isLeft <;>
        · simp only [getLabelData]
          rw [if_neg hle]
          simp
    · subst hl
      simp only [getLabelData]
      rw [if_neg hle]
      simp
    · subst hl
      simp only [getLabelData]
      rw [if_neg hle]
      simp

/-- Witness for C5 with the zero-width measure: a bar of width 10 exceeds the
measured label width 0, so the label is centered inside with the inside
fill; instantiated from the placement theorem at concrete inputs. -/
theorem getLabelData_placement_witness :
    (getLabelData constMeasure 20 7 0 0 3 4 10 false "in" "out").dx =
      3 + 10 / 2 -
        (getLabelData constMeasure 20 7 0 0 3 4 10 false "in" "out").width
          / 2 ∧
    (getLabelData constMeasure 20 7 0 0 3 4 10 false "in" "out").colour =
      "in" :=
  (getLabelData_placement constMeasure 20 1 7 0 1 1 0 0 3 4 10 false false
    false "in" "out" "c" "cat" "s" "d" 0).2.2.1 (by norm_num [constMeasure])

/-- The `height` read by `renderLabels`: `columnsData[0].label.height` when a
first column exists, 0 otherwise. -/
def firstLabelHeight : List ColumnData → ℚ
  | [] => 0
  | c :: _ => c.label.height

/-- The uniform opacity `renderLabels` applies to the whole label layer:
`setOpacity(...)` (defaulting to `MinOpacity`) when `!settings.showLabels ||
height > this.heightColumn`, else `setOpacity(..., MaxOpacity)`. -/
def renderLabelsOpacity (columnsData : List ColumnData) (showLabels : Bool)
    (heightColumn : ℚ) : ℚ :=
  if showLabels = false ∨ firstLabelHeight columnsData > heightColumn
    then MinOpacity else MaxOpacity

/-- C6 (amended): the label layer is hidden (uniform zero opacity for every
label) exactly when showLabels is false or the FIRST label's measured height
(0 when there are no bars) exceeds the row height — not when any label's
height does, as the original claim stated; otherwise the whole layer is at
full opacity. The decision is a single opacity applied to the entire layer. -/
theorem renderLabelsOpacity_allOrNothing (cols : List ColumnData)
    (showLabels : Bool) (hC : ℚ) :
    (renderLabelsOpacity cols showLabels hC = MinOpacity ↔
      (showLabels = false ∨ firstLabelHeight cols > hC)) ∧
    (renderLabelsOpacity cols showLabels hC ≠ MinOpacity →
      renderLabelsOpacity cols showLabels hC = MaxOpacity) := by
  unfold renderLabelsOpacity
  by_cases h : showLabels = false ∨ firstLabelHeight cols > hC
  · simp [h, MinOpacity]
  · simp only [h, if_false]
    norm_num [MinOpacity, MaxOpacity, h]

/-- Witness for C6: with labels disabled the layer opacity is MinOpacity,
instantiated from the amended theorem. -/
theorem renderLabelsOpacity_allOrNothing_witness :
    renderLabelsOpacity [] false 10 = MinOpacity :=
  (renderLabelsOpacity_allOrNothing [] false 10).1.mpr (Or.inl rfl)

/-- A label record with a given measured height (for concrete evaluation). -/
def demoLabel (h : ℚ) : LabelData where
  x := 0
  y := 0
  dx := 0
  dy := 0
  source := 0
  value := ""
  colour := ""
  height := h
  width := 0

/-- A column record whose label has a given measured height. -/
def demoColumn (h : ℚ) : ColumnData where
  x := 0
  y := 0
  dx := 0
  dy := 0
  px := 0
  py := 0
  angle := 0
  width := 0
  height := 0
  label := demoLabel h
  color := ""
  tooltipData := []

/-- C6 counterexample: with showLabels on, row height 10, and two bars whose
label heights are 5 and 100, the second label's height exceeds the row
height, yet the layer is shown at full opacity — the code consults only the
first label's height, not any label's. -/
theorem renderLabelsOpacity_ignores_later_labels :
    renderLabelsOpacity [demoColumn 5, demoColumn 100] true 10 = MaxOpacity ∧
    (demoColumn 100).label.height > 10 ∧ MaxOpacity ≠ MinOpacity := by
  refine ⟨?_, ?_, ?_⟩
  · norm_num [renderLabelsOpacity, firstLabelHeight, demoColumn, demoLabel]
  · norm_num [demoColumn, demoLabel]
  · norm_num [MaxOpacity, MinOpacity]

/-- Source `mirrorIndex`: the `index` computed by `setSelection` when
`selectSecondSeries` is set, with `shift = Math.floor(quantityOfColumns / 2)`:
`i + shift` when `i < shift`, else `i - shift`. -/
def mirrorIndex (quantityOfColumns i : Nat) : Nat :=
  let shift := quantityOfColumns / 2
  if i < shift then i + shift else i - shift

/-- Source `setSelection` as a transformer of the per-column opacity state
(column index → fill-opacity). The d3 `filter` predicate
`item !== columnElements[index] || item !== columnElements[currentIndex]`
is translated literally; the filtered columns get `MinColumnOpacity`, then
the clicked column — and, when `selectSecondSeries`, the mirrored column —
are raised to `MaxOpacity`. -/
def setSelectionOpacity (quantityOfColumns currentIndexOfColumn : Nat)
    (selectSecondSeries : Bool) (opacity : Nat → ℚ) : Nat → ℚ :=
  let index := if selectSecondSeries
    then mirrorIndex quantityOfColumns currentIndexOfColumn
    else currentIndexOfColumn
  let afterFilter := fun j =>
    if j ≠ index ∨ j ≠ currentIndexOfColumn then MinColumnOpacity
    else opacity j
  let afterCurrent := fun j =>
    if j = currentIndexOfColumn then MaxOpacity else afterFilter j
  if selectSecondSeries then
    fun j => if j = index then MaxOpacity else afterCurrent j
  else afterCurrent

/-- C8: in a 2-series chart (an even column count 2n) clicking column
i < 2n leaves exactly the pair {i, mirrorIndex i} at MaxOpacity and every
other column at MinColumnOpacity; mirrorIndex is an involution on [0, 2n);
and selecting the mirror highlights exactly the same pair of columns. -/
theorem setSelection_pair (n i : Nat) (op : Nat → ℚ) (hi : i < 2 * n) :
    (∀ j, setSelectionOpacity (2 * n) i true op j =
      if j = i ∨ j = mirrorIndex (2 * n) i then MaxOpacity
      else MinColumnOpacity) ∧
    mirrorIndex (2 * n) (mirrorIndex (2 * n) i) = i ∧
    (∀ j, setSelectionOpacity (2 * n) (mirrorIndex (2 * n) i) true op j =
      setSelectionOpacity (2 * n) i true op j) := by
  have hshift : 2 * n / 2 = n := by omega
  have hmirror : mirrorIndex (2 * n) i = if i < n then i + n else i - n := by
    simp [mirrorIndex, hshift]
  have hinv : mirrorIndex (2 * n) (mirrorIndex (2 * n) i) = i := by
    simp only [mirrorIndex, hshift]
    split <;> split <;> omega
  have hne : mirrorIndex (2 * n) i ≠ i := by
    rw [hmirror]; split <;> omega
  have key : ∀ a : Nat, a < 2 * n → ∀ j,
      setSelectionOpacity (2 * n) a true op j =
        if j = a ∨ j = mirrorIndex (2 * n) a then MaxOpacity
        else MinColumnOpacity := by
    intro a ha j
    simp only [setSelectionOpacity, if_true]
    by_cases hj1 : j = mirrorIndex (2 * n) a
    · have : j ≠ a := by
        rw [hj1]
        simp only [mirrorIndex]
        split <;> omega
      simp [hj1, this]
    · by_cases hj2 : j = a
      · simp [hj1, hj2]
      · simp [hj1, hj2]
  refine ⟨key i hi, hinv, fun j => ?_⟩
  have hmlt : mirrorIndex (2 * n) i < 2 * n := by
    rw [hmirror]; split <;> omega
  rw [key i hi j, key (mirrorIndex (2 * n) i) hmlt j, hinv]
  by_cases h1 : j = i <;> by_cases h2 : j = mirrorIndex (2 * n) i <;>
    simp [h1, h2]

/-- A constant prior opacity state for concrete evaluation. -/
def fullOpacityState : Nat → ℚ := fun _ => 1

/-- Witness for C8 with 4 columns (2 series × 2 categories), clicking
column 1: its mirror is column 3; columns 1 and 3 end at MaxOpacity and
column 0 at MinColumnOpacity. -/
theorem setSelection_pair_witness :
    setSelectionOpacity (2 * 2) 1 true fullOpacityState 3 = MaxOpacity ∧
    setSelectionOpacity (2 * 2) 1 true fullOpacityState 1 = MaxOpacity ∧
    setSelectionOpacity (2 * 2) 1 true fullOpacityState 0 =
      MinColumnOpacity := by
  have h := setSelection_pair 2 1 fullOpacityState (by norm_num)
  refine ⟨?_, ?_, ?_⟩
  · rw [h.1 3]
    norm_num [mirrorIndex]
  · rw [h.1 1]
    norm_num
  · rw [h.1 0]
    norm_num [mirrorIndex]

/-- Column source metadata (the fields the converter reads). -/
structure ColumnSource where
  displayName : String
deriving Repr, DecidableEq

/-- Source `DataViewCategoryColumn`: possibly-missing source metadata plus the
category string values. -/
structure DataViewCategoryColumn where
  source : Option ColumnSource
  values : List String

/-- Source `DataViewValueColumn`: source metadata plus numeric values. -/
structure DataViewValueColumn where
  source : ColumnSource
  values : List ℚ

/-- Source `DataViewCategorical`: the `categories` and `values` arrays, each
possibly absent (`null`/`undefined`). -/
structure DataViewCategorical where
  categories : Option (List DataViewCategoryColumn)
  values : Option (List DataViewValueColumn)

/-- Source `DataView`: the categorical payload, possibly absent. -/
structure DataView where
  categorical : Option DataViewCategorical

/-- Source `LegendDataPoint` (the fields `getLegendData` fills from a series). -/
structure LegendDataPoint where
  label : String
  color : String
deriving Repr, DecidableEq

/-- Source `parseSeries`: one `TornadoChartSeries` per value column — name from the
column's source, values verbatim, fill through the external color-resolution
collaborator (modelled as the function `resolveFill` of the column index). -/
def parseSeries (resolveFill : Nat → String)
    (cols : List DataViewValueColumn) : List TornadoChartSeries :=
  cols.mapIdx fun index col =>
    { fill := resolveFill index, name := col.source.displayName,
      values := col.values }

/-- Source `getLegendData`: one legend entry per series (name and color). -/
def getLegendData (series : List TornadoChartSeries) :
    List LegendDataPoint :=
  series.map fun s => { label := s.name, color := s.fill }

/-- The converter's output model: the fields assembled from the data view
(the settings object additionally holds the externally built formatter and
resolved colors; its numeric seed `values[0].values[0]` is kept here as
`settingsValue`). -/
structure TornadoChartViewModel where
  displayName : String
  categories : List String
  series : List TornadoChartSeries
  settingsValue : Option ℚ
  legend : List LegendDataPoint

/-- The exception raised by `this.parseSettings(dataView, objects,
values[0].values[0])` when the retained `values` array is empty. -/
def valuesIndexError : String :=
  "TypeError: cannot read property of undefined at values[0].values[0]"

/-- Source `converter(dataView)`: returns `null` (`Except.ok none`) when the data
view, its categorical payload, its categories array, `categories[0]`, that
column's source, or the values array is missing; retains at most the first
`MaxSeries` value columns; a JavaScript exception is `Except.error`. The
guard `!dataView.categorical.values` does not reject a present-but-empty
values array, and `values[0].values[0]` then faults. -/
def converter (resolveFill : Nat → String) (dataView : Option DataView) :
    Except String (Option TornadoChartViewModel) :=
  match dataView with
  | none => Except.ok none
  | some dv =>
  match dv.categorical with
  | none => Except.ok none
  | some categorical =>
  match categorical.categories with
  | none => Except.ok none
  | some categories =>
  match categories.head? with
  | none => Except.ok none
  | some category0 =>
  match category0.source with
  | none => Except.ok none
  | some source =>
  match categorical.values with
  | none => Except.ok none
  | some allValues =>
  match (allValues.take MaxSeries).head? with
  | none => Except.error valuesIndexError
  | some values0 =>
  Except.ok (some
    { displayName := source.displayName,
      categories := category0.values,
      series := parseSeries resolveFill (allValues.take MaxSeries),
      settingsValue := values0.values.head?,
      legend := getLegendData (parseSeries resolveFill
        (allValues.take MaxSeries)) })

/-- C9 (amended): converter returns the null model on every missing input
(absent data view, categorical payload, categories array, first category
column, its source metadata, or values array), never more; when all pieces
are present it retains at most MaxSeries value columns, and it returns a
fully assembled model whenever the values array is also nonempty — but on a
present-and-empty values array the indexing `values[0]` faults instead of
returning null (the original totality claim fails there). -/
theorem converter_null_on_missing (resolveFill : Nat → String)
    (cat : DataViewCategorical) (catCols : List DataViewCategoryColumn)
    (c0 : DataViewCategoryColumn) (src : ColumnSource)
    (vals : List DataViewValueColumn) :
    (converter resolveFill none = Except.ok none) ∧
    (converter resolveFill (some { categorical := none }) =
      Except.ok none) ∧
    (cat.categories = none →
      converter resolveFill (some { categorical := some cat }) =
        Except.ok none) ∧
    (cat.categories = some [] →
      converter resolveFill (some { categorical := some cat }) =
        Except.ok none) ∧
    (cat.categories = some (c0 :: catCols) → c0.source = none →
      converter resolveFill (some { categorical := some cat }) =
        Except.ok none) ∧
    (cat.categories = some (c0 :: catCols) → c0.source = some src →
      cat.values = none →
      converter resolveFill (some { categorical := some cat }) =
        Except.ok none) ∧
    (∀ dvAny m, converter resolveFill dvAny = Except.ok (some m) →
      m.series.length ≤ MaxSeries) ∧
    (cat.categories = some (c0 :: catCols) → c0.source = some src →
      cat.values = some vals → vals ≠ [] →
      ∃ m, converter resolveFill (some { categorical := some cat }) =
          Except.ok (some m) ∧
        m.displayName = src.displayName ∧
        m.categories = c0.values ∧
        m.series = parseSeries resolveFill (vals.take MaxSeries) ∧
        m.legend = getLegendData m.series) := by
  refine ⟨rfl, rfl, ?_, ?_, ?_, ?_, ?_, ?_⟩
  · intro h1
    simp [converter, h1]
  · intro h1
    simp [converter, h1]
  · intro h1 h2
    simp [converter, h1, h2]
  · intro h1 h2 h3
    simp [converter, h1, h2, h3]
  · intro dvAny m hm
    cases dvAny with
    | none => simp [converter] at hm
    | some dv =>
      simp only [converter] at hm
      cases hc : dv.categorical with
      | none => simp [hc] at hm
      | some categorical =>
        simp only [hc] at hm
        cases hcats : categorical.categories with
        | none => simp [hcats] at hm
        | some categories =>
          simp only [hcats] at hm
          cases categories with
          | nil => simp at hm
          | cons c0h ct =>
            simp only [List.head?_cons] at hm
            cases hsrc : c0h.source with
            | none => simp [hsrc] at hm
            | some source =>
              simp only [hsrc] at hm
              cases hv : categorical.values with
              | none => simp [hv] at hm
              | some allValues =>
                simp only [hv] at hm
                cases hh : (allValues.take MaxSeries).head? with
                | none => simp [hh] at hm
                | some values0 =>
                  simp only [hh, Except.ok.injEq, Option.some.injEq] at hm
                  subst hm
                  simp only [parseSeries, List.length_mapIdx]
                  exact List.length_take_le _ _
  · intro h1 h2 h3 hne
    cases vals with
    | nil => exact absurd rfl hne
    | cons v0 vt =>
      refine Exists.intro
        { displayName := src.displayName,
          categories := c0.values,
          series := parseSeries resolveFill ((v0 :: vt).take MaxSeries),
          settingsValue := v0.values.head?,
          legend := getLegendData
            (parseSeries resolveFill ((v0 :: vt).take MaxSeries)) }
        ⟨?_, rfl, rfl, rfl, rfl⟩
      simp [converter, h1, h2, h3, MaxSeries]

/-- A constant fill-color resolver for concrete evaluation. -/
def purpleFill : Nat → String := fun _ => "purple"

/-- A concrete category column with source metadata present. -/
def demoCategoryColumn : DataViewCategoryColumn where
  source := some { displayName := "cat" }
  values := ["a"]

/-- A categorical payload whose values array is missing. -/
def missingValuesCategorical : DataViewCategorical where
  categories := some [demoCategoryColumn]
  values := none

/-- Witness for C9: a categorical payload whose values array is missing
yields the null model, via the amended theorem at concrete inputs. -/
theorem converter_null_on_missing_witness :
    converter purpleFill
      (some { categorical := some missingValuesCategorical }) =
      Except.ok none :=
  (converter_null_on_missing purpleFill missingValuesCategorical []
    demoCategoryColumn { displayName := "cat" } []).2.2.2.2.2.1
    rfl rfl rfl

/-- A categorical payload whose guards all pass but whose values array is
empty. -/
def emptyValuesCategorical : DataViewCategorical where
  categories := some [demoCategoryColumn]
  values := some []

/-- A data view whose guards all pass but whose values array is empty. -/
def emptyValuesDataView : DataView where
  categorical := some emptyValuesCategorical

/-- C9 counterexample: on a present categorical payload with an empty values
array, converter raises the values[0] TypeError instead of returning the
null model — it is not total over its input domain. -/
theorem converter_throws_on_empty_values :
    converter purpleFill (some emptyValuesDataView) =
      Except.error valuesIndexError ∧
    (Except.error valuesIndexError ≠
      (Except.ok none : Except String (Option TornadoChartViewModel))) := by
  constructor
  · simp [converter, emptyValuesDataView, emptyValuesCategorical,
      demoCategoryColumn, MaxSeries]
  · simp

end TornadoChart
